import Mathlib

/-!
Shallow embedding of the HTTP dispatch core of the `mips` repository:
response classification, the retrying request executor, the MIPS
pagination fetch, the bulk patch-and-validate orchestrator, the RPS
limiter selection policy and the limiter spacing arithmetic.

Sources embedded:
  - src/lib/gateway/base/gw.py       (HTTPClient)
  - src/lib/gateway/base/rps_limiter.py (ThreadingLimiter)
  - src/lib/gateway/mips.py          (MIPSClient)
  - src/lib/gateway/mips/client.py   (older MIPSClient, same pagination)
-/

/-- Exceptions of the gateway layer.  `clientError`, `serverError` and
`unexpectedStatusCode` are the classes declared in src/lib/gateway/base/gw.py;
`invalidAuth` is `InvalidAUTHError` from src/lib/gateway/mips.py;
`transportError` stands for any exception raised by the underlying
`requests` transport (connection-level failure, no response obtained). -/
inductive GwError where
  | clientError
  | serverError
  | unexpectedStatusCode
  | invalidAuth
  | transportError
  deriving DecidableEq

/-- `HTTPClient.response_to_exception` (src/lib/gateway/base/gw.py lines
103-114): status 200 maps to no exception (success), 4xx to `ClientError`,
5xx to `ServerError`, every other status to `UnexpectedStatusCodeError`. -/
def response_to_exception (status : Nat) : Option GwError :=
  if status = 200 then none
  else if 400 ≤ status ∧ status < 500 then some GwError.clientError
  else if 500 ≤ status ∧ status < 600 then some GwError.serverError
  else some GwError.unexpectedStatusCode

/-- The marker text `JS_NEEDED_SUBSTRING` of src/lib/gateway/mips.py,
as a list of characters. -/
def JS_NEEDED_SUBSTRING : List Char :=
  "trunk_1.0.0 doesn't work properly without JavaScript enabled".data

/-- One pattern character of `re.search`, where the pattern is the marker
text interpreted as a regular expression: the character `.` matches any
character, every other character of the marker only matches itself. -/
def regexPatternChar (p c : Char) : Bool :=
  p = '.' || p = c

/-- Does the pattern match at the very start of the string?  (The marker
contains no other regex metacharacters, so per-character matching of a
contiguous block is exactly what `re.search` does here.) -/
def matchHere : List Char → List Char → Bool
  | [], _ => true
  | _ :: _, [] => false
  | p :: ps, c :: cs => regexPatternChar p c && matchHere ps cs

/-- `re.search(pattern, string)` for the marker pattern: the pattern
matches at some position of the string. -/
def regexSearch (pat : List Char) : List Char → Bool
  | [] => matchHere pat []
  | c :: cs => matchHere pat (c :: cs) || regexSearch pat cs

/-- `MIPSClient.response_to_exception` (src/lib/gateway/mips.py lines 153-166):
like the base classifier, except that a 200 response whose text matches the
`JS_NEEDED_SUBSTRING` marker is converted to `InvalidAUTHError`. -/
def mips_response_to_exception (status : Nat) (body : List Char) : Option GwError :=
  if status = 200 then
    if regexSearch JS_NEEDED_SUBSTRING body then some GwError.invalidAuth else none
  else if 400 ≤ status ∧ status < 500 then some GwError.clientError
  else if 500 ≤ status ∧ status < 600 then some GwError.serverError
  else some GwError.unexpectedStatusCode

/-- The base classifier lifted to the (status, body) signature; the body is
ignored, exactly as in `HTTPClient.response_to_exception`. -/
def gwClassify (status : Nat) (_body : List Char) : Option GwError :=
  response_to_exception status

/-- The MIPS classifier under the common signature. -/
def mipsClassify (status : Nat) (body : List Char) : Option GwError :=
  mips_response_to_exception status body

/-- Result of one underlying send: either a response with a status code and
a body, or a connection-level transport failure with no response. -/
inductive SendResult where
  | response (status : Nat) (body : List Char)
  | transportError

/-- The exceptions named in the `retry.retry` decorator of
`HTTPClient._make_request` (src/lib/gateway/base/gw.py line 116):
only `ServerError` and `UnexpectedStatusCodeError` are retried. -/
def retriableByDecorator : GwError → Bool
  | GwError.serverError => true
  | GwError.unexpectedStatusCode => true
  | _ => false

/-- One attempt of the body of `HTTPClient._make_request`: perform the send
(`endpoint attempt` is what the network returns for the given 0-based
attempt number), then classify; a classified error is raised, a transport
failure propagates as the corresponding exception. -/
def attemptOnce (classify : Nat → List Char → Option GwError)
    (endpoint : Nat → SendResult) (attempt : Nat) :
    Except GwError (Nat × List Char) :=
  match endpoint attempt with
  | SendResult.transportError => Except.error GwError.transportError
  | SendResult.response s b =>
    match classify s b with
    | none => Except.ok (s, b)
    | some e => Except.error e

/-- The `retry.retry(exceptions=(ServerError, UnexpectedStatusCodeError),
backoff=2, tries=10, delay=1)` loop, for `tries ≥ 1`: run an attempt; on an
exception listed in the decorator with at least one try remaining, retry
(after the backoff sleep, which does not affect the returned value);
any other exception, or exhaustion, is raised to the caller.  Returns the
outcome together with the number of underlying sends performed. -/
def runRetry (classify : Nat → List Char → Option GwError)
    (endpoint : Nat → SendResult) :
    Nat → Nat → Except GwError (Nat × List Char) × Nat
  | 0, attempt => (attemptOnce classify endpoint attempt, 1)
  | 1, attempt => (attemptOnce classify endpoint attempt, 1)
  | tries + 2, attempt =>
    match attemptOnce classify endpoint attempt with
    | Except.ok r => (Except.ok r, 1)
    | Except.error e =>
      if retriableByDecorator e then
        let rest := runRetry classify endpoint (tries + 1) (attempt + 1)
        (rest.1, rest.2 + 1)
      else (Except.error e, 1)

/-- `HTTPClient.make_request` / `_make_request` with the decorator's
`tries=10`, starting at attempt 0.  The classifier is a parameter because
`self.response_to_exception` dispatches to the subclass override. -/
def make_request (classify : Nat → List Char → Option GwError)
    (endpoint : Nat → SendResult) : Except GwError (Nat × List Char) × Nat :=
  runRetry classify endpoint 10 0

/-- `MIPSClient.get_devices` (src/lib/gateway/mips.py lines 255-282, and the
identical pagination logic of src/lib/gateway/mips/client.py lines 94-125).
`fetch p` returns the page-`p` response: `(data, pagination.page,
pagination.max)`.  The Python function recurses until the reported page
equals the max page; the recursive call passes `results=resp_body["data"]`
(only the current page's data) as the next accumulator.  The fuel argument
makes the unbounded Python recursion total (`none` = fuel exhausted); the
second component of the result counts fetch calls. -/
def get_devices (fetch : Nat → List Nat × Nat × Nat) :
    Nat → List Nat → Nat → Option (List Nat × Nat)
  | 0, _, _ => none
  | fuel + 1, results, page =>
    let r := fetch page
    if r.2.1 = r.2.2 then some (results ++ r.1, 1)
    else
      match get_devices fetch fuel r.1 (r.2.1 + 1) with
      | none => none
      | some (items, calls) => some (items, calls + 1)

/-- Entry point of `get_devices`: `results=None` defaults to the empty
accumulator and `page=None` defaults to page 1. -/
def get_devices_entry (fetch : Nat → List Nat × Nat × Nat) (fuel : Nat) :
    Option (List Nat × Nat) :=
  get_devices fetch fuel [] 1

/-- Domain errors appearing in `PatchBacklightAndValidateResult.error`:
the `TimeoutError(f"group timeout ({group_timeout}) breached")` produced by
the orchestrator, an arbitrary task exception (abstracted by a code), and
the `ValueError` of a failed patch validation. -/
inductive MipsErr where
  | timeout (groupTimeout : Nat)
  | exn (code : Nat)
  | validationError (expected actual : Nat)
  deriving DecidableEq

/-- `PatchBacklightAndValidateResult` (src/lib/gateway/mips.py lines 51-79);
every field defaults to `None` in the Python constructor.  Timestamps are
abstracted to natural numbers. -/
structure PBVResult where
  device : Option Nat
  start_ts : Option Nat
  backlight_status : Option String
  end_ts : Option Nat
  error : Option MipsErr
  mode : Option String
  deriving DecidableEq

/-- A `PatchBacklightAndValidateResult()` with all constructor defaults. -/
def emptyPBV : PBVResult :=
  { device := none, start_ts := none, backlight_status := none,
    end_ts := none, error := none, mode := none }

/-- `BACKLIGHT_PARAM_TO_NAME` (src/lib/gateway/mips.py lines 37-40); a key
outside the dict raises `KeyError`, modelled by `none`. -/
def BACKLIGHT_PARAM_TO_NAME : Nat → Option String
  | 1 => some "backlight_on"
  | 0 => some "backlight_off"
  | _ => none

/-- `SHADOW_MODE` of src/lib/gateway/mips.py. -/
def SHADOW_MODE : String := "shadow"

/-- `PROD_MODE` of src/lib/gateway/mips.py. -/
def PROD_MODE : String := "production"

/-- `MIPSClient.patch_backlight_and_validate` (src/lib/gateway/mips.py lines
344-385) as a function of its environment: `patchErr` is what
`patch_backlight` returns, `blSettings` what `get_backlight_settings`
returns, `startTs` the timestamp taken at entry.  `none` models the
`KeyError` raised by `BACKLIGHT_PARAM_TO_NAME[switch_status]` on an invalid
status. -/
def patch_backlight_and_validate (device_id switch_status : Nat)
    (shadow_mode : Bool) (startTs : Nat)
    (patchErr : Option MipsErr) (blSettings : Except MipsErr Nat) :
    Option PBVResult :=
  match BACKLIGHT_PARAM_TO_NAME switch_status with
  | none => none
  | some blName =>
    let result : PBVResult :=
      { device := some device_id, start_ts := some startTs,
        backlight_status := some blName, end_ts := none,
        error := none, mode := some PROD_MODE }
    if shadow_mode then some { result with mode := some SHADOW_MODE }
    else
      match patchErr with
      | some e => some { result with error := some e }
      | none =>
        match blSettings with
        | Except.error e => some { result with error := some e }
        | Except.ok st =>
          if st ≠ switch_status then
            some { result with
                   error := some (MipsErr.validationError switch_status st) }
          else some result

/-- The state of one submitted future at the moment `futures.wait` returns:
completed with a result object, completed by raising an exception, or still
outstanding when the group deadline elapsed (`started` records whether its
unit of work had already begun executing). -/
inductive FutOutcome where
  | ok (res : PBVResult)
  | exn (code : Nat)
  | pending (started : Bool)

/-- A future is in the `done` set of `futures.wait` iff it completed. -/
def isDone : FutOutcome → Bool
  | FutOutcome.pending _ => false
  | _ => true

/-- Processing of one completed future in the orchestrator's `done` loop
(src/lib/gateway/mips.py lines 428-444): a normal result gets `end_ts`
stamped; an exception from `fut.result()` is converted into a fresh result
record carrying the error, with the snapshot timestamp as both start and
end.  The `pending` case cannot occur for a done future. -/
def doneCase (device ts : Nat) (blName mode : String) :
    FutOutcome → PBVResult
  | FutOutcome.ok res => { res with end_ts := some ts }
  | FutOutcome.exn c =>
    { device := some device, start_ts := some ts,
      backlight_status := some blName, end_ts := some ts,
      error := some (MipsErr.exn c), mode := some mode }
  | FutOutcome.pending _ => emptyPBV

/-- `MIPSClient.patch_backlight_and_validate_bulk` (src/lib/gateway/mips.py
lines 387-461).  Task `i` carries device `devices[i]`; `outcome i` is the
state of its future when `futures.wait(fs, timeout=group_timeout)` returns
(the per-task work is abstracted by this map).  `ts` is the single
`utils.get_current_timestamp()` snapshot taken after the wait.  The
`done`/`timed_out` sets are iterated in index order (the Python set order
is arbitrary; no claim depends on it).  `none` models the `KeyError` of
`BACKLIGHT_PARAM_TO_NAME[switch_status]`. -/
def patch_backlight_and_validate_bulk (timeout : Nat) (devices : List Nat)
    (outcome : Nat → FutOutcome) (ts switch_status : Nat)
    (shadow_mode : Bool) : Option (List PBVResult) :=
  match BACKLIGHT_PARAM_TO_NAME switch_status with
  | none => none
  | some backlight_status =>
    let n := devices.length
    let fs := List.range n
    let group_timeout := timeout * n
    let mode := if shadow_mode then SHADOW_MODE else PROD_MODE
    let done := fs.filter fun i => isDone (outcome i)
    let timed_out := fs.filter fun i => !(isDone (outcome i))
    some
      (done.map (fun i =>
          doneCase (devices.getD i 0) ts backlight_status mode (outcome i))
        ++ timed_out.map (fun i =>
          { device := some (devices.getD i 0), start_ts := some ts,
            backlight_status := some backlight_status, end_ts := some ts,
            error := some (MipsErr.timeout group_timeout),
            mode := some mode }))

/-- Models `concurrent.futures.Future.cancel` as applied by the orchestrator
to a future still outstanding at the deadline (src/lib/gateway/mips.py line
459): cancellation actually skips the task iff its execution has not
started; a running unit of work is not aborted mid-flight. -/
def futureCancelSkips (started : Bool) : Bool := !started

/-- `RPS_PARSE_BY_METHOD_MODE` of src/lib/gateway/base/gw.py. -/
def RPS_PARSE_BY_METHOD_MODE : Nat := 0

/-- `RPS_PARSE_BLANKET_MODE` of src/lib/gateway/base/gw.py. -/
def RPS_PARSE_BLANKET_MODE : Nat := 1

/-- The per-client limiter attributes set by the `HTTPClient` constructor:
`rps_by_method` (dict of method-name keys to limiters) and
`base_rps_limiter`.  Limiter instances are abstracted by identifiers. -/
structure RpsState where
  rps_by_method : Option (List (String × Nat))
  base_rps_limiter : Option Nat
  deriving DecidableEq

/-- `HTTPClient._parse_rps_config` (src/lib/gateway/base/gw.py lines 78-101)
for a valid mode: blanket mode builds only `base_rps_limiter` from the
whole config; by-method mode builds only the method-keyed limiter map.
`byMethodCfg` is the limiter built per key of `cfg["method"]`,
`blanketLimiter` the one built from the blanket config. -/
def parse_rps_config (mode : Nat) (byMethodCfg : List (String × Nat))
    (blanketLimiter : Nat) : RpsState :=
  if mode = RPS_PARSE_BLANKET_MODE then
    { rps_by_method := none, base_rps_limiter := some blanketLimiter }
  else
    { rps_by_method := some byMethodCfg, base_rps_limiter := none }

/-- The constructor state when no rps config is given: no limiters. -/
def noRpsState : RpsState :=
  { rps_by_method := none, base_rps_limiter := none }

/-- The limiter choice of `HTTPClient._request_wrapper`
(src/lib/gateway/base/gw.py lines 146-159): if `rps_by_method` is set, look
it up with `req.method.lower()` (a missing key yields no limiter);
otherwise use `base_rps_limiter` if set; otherwise no limiter. -/
def chooseLimiter (st : RpsState) (method : String) : Option Nat :=
  match st.rps_by_method with
  | some m => List.lookup method.toLower m
  | none => st.base_rps_limiter

/-- `interval_ms = 1000/rps` of `ThreadingLimiter.__init__`
(src/lib/gateway/base/rps_limiter.py line 21). -/
def interval_ms (rps : ℚ) : ℚ := 1000 / rps

/-- The proceed timestamp of one `ThreadingLimiter.__enter__` critical
section (src/lib/gateway/base/rps_limiter.py lines 30-40): entering at wall
time `t` (ms) with stored `last_request_time = last`, the thread sleeps
`max 0 (interval_ms - (t - last))` ms and then reads the clock again; that
reading, `t + sleep + eps`, becomes both the proceed time and the new
`last_request_time`.  `eps ≥ 0` is the extra delay between the end of the
requested sleep and the second clock read (sleep never wakes early and the
clock does not run backwards while waiting). -/
def limiterProceed (intervalMs last t eps : ℚ) : ℚ :=
  t + max 0 (intervalMs - (t - last)) + eps

/-- A sequence of acquisitions on one limiter instance, serialized by
`rps_lock`: each event is the pair (entry wall time, post-sleep extra
delay); the list of proceed timestamps is returned, each one becoming the
`last_request_time` seen by the next acquisition. -/
def limiterRun (intervalMs : ℚ) : ℚ → List (ℚ × ℚ) → List ℚ
  | _, [] => []
  | last, ev :: rest =>
    let p := limiterProceed intervalMs last ev.1 ev.2
    p :: limiterRun intervalMs p rest

/-- A simulated endpoint whose first send fails at the connection level and
whose every later send returns a plain 200 response. -/
def transportThenOk : Nat → SendResult
  | 0 => SendResult.transportError
  | _ => SendResult.response 200 []

/-- A simulated endpoint whose first send returns status 500 and whose
every later send returns a plain 200 response. -/
def serverErrThenOk : Nat → SendResult
  | 0 => SendResult.response 500 []
  | _ => SendResult.response 200 []

/-- The 4-page device listing of the pagination test: pages of sizes
3, 3, 3, 1 with max page 4, items numbered 0..9 in page order. -/
def fourPages : Nat → List Nat × Nat × Nat
  | 1 => ([0, 1, 2], 1, 4)
  | 2 => ([3, 4, 5], 2, 4)
  | 3 => ([6, 7, 8], 3, 4)
  | _ => ([9], 4, 4)

theorem matchHere_append_self (pat rest : List Char) :
    matchHere pat (pat ++ rest) = true := by
  induction pat with
  | nil => rfl
  | cons p ps ih => simp [matchHere, regexPatternChar, ih]

theorem regexSearch_of_matchHere (pat s : List Char)
    (h : matchHere pat s = true) : regexSearch pat s = true := by
  cases s with
  | nil => simpa [regexSearch] using h
  | cons c cs => simp [regexSearch, h]

theorem regexSearch_cons_of_tail (pat : List Char) (c : Char)
    (cs : List Char) (h : regexSearch pat cs = true) :
    regexSearch pat (c :: cs) = true := by
  simp [regexSearch, h]

theorem regexSearch_of_append (pat pre post : List Char) :
    regexSearch pat (pre ++ pat ++ post) = true := by
  induction pre with
  | nil =>
    exact regexSearch_of_matchHere pat (pat ++ post)
      (matchHere_append_self pat post)
  | cons c cs ih => exact regexSearch_cons_of_tail pat c _ ih

theorem runRetry_ok (classify : Nat → List Char → Option GwError)
    (endpoint : Nat → SendResult) :
    ∀ (j t a : Nat) (r : Nat × List Char), j + 1 ≤ t →
    (∀ i, i < j → ∃ e, attemptOnce classify endpoint (a + i) = Except.error e ∧
        retriableByDecorator e = true) →
    attemptOnce classify endpoint (a + j) = Except.ok r →
    runRetry classify endpoint t a = (Except.ok r, j + 1) := by
  intro j
  induction j with
  | zero =>
    intro t a r ht _ hok
    rw [Nat.add_zero] at hok
    rcases t with _ | _ | t
    · omega
    · simp [runRetry, hok]
    · simp [runRetry, hok]
  | succ j ih =>
    intro t a r ht hfail hok
    obtain ⟨e, he, hret⟩ := hfail 0 (by omega)
    rw [Nat.add_zero] at he
    rcases t with _ | _ | t
    · omega
    · omega
    · have hfail' : ∀ i, i < j →
          ∃ e, attemptOnce classify endpoint (a + 1 + i) = Except.error e ∧
            retriableByDecorator e = true := by
        intro i hi
        have h2 := hfail (i + 1) (by omega)
        rwa [show a + (i + 1) = a + 1 + i by omega] at h2
      have hok' : attemptOnce classify endpoint (a + 1 + j) = Except.ok r := by
        rwa [show a + (j + 1) = a + 1 + j by omega] at hok
      have hrec := ih (t + 1) (a + 1) r (by omega) hfail' hok'
      simp [runRetry, he, hret, hrec]

theorem runRetry_no_retry (classify : Nat → List Char → Option GwError)
    (endpoint : Nat → SendResult) (t a : Nat) (e : GwError)
    (he : attemptOnce classify endpoint a = Except.error e)
    (hnr : retriableByDecorator e = false) :
    runRetry classify endpoint t a = (Except.error e, 1) := by
  rcases t with _ | _ | t <;> simp [runRetry, he, hnr]

theorem range_map_getD (l : List Nat) (d : Nat) :
    (List.range l.length).map (fun i => l.getD i d) = l := by
  induction l with
  | nil => rfl
  | cons a tl ih =>
    rw [List.length_cons, List.range_succ_eq_map, List.map_cons,
      List.map_map]
    have hcomp : List.map ((fun i => (a :: tl).getD i d) ∘ Nat.succ)
        (List.range tl.length) = List.map (fun i => tl.getD i d)
        (List.range tl.length) :=
      List.map_congr_left fun i _ => by
        simp [Function.comp, List.getD_cons_succ]
    rw [hcomp, ih, List.getD_cons_zero]

/-- C5: the response classifier is total and maps 200 to success (no
exception), every status in [400,499] to ClientError, every status in
[500,599] to ServerError, and every other status — in particular 301 and
600 — to UnexpectedStatusCodeError. -/
theorem classification_totality (s : Nat) :
    response_to_exception 200 = none ∧
    (400 ≤ s → s ≤ 499 → response_to_exception s = some GwError.clientError) ∧
    (500 ≤ s → s ≤ 599 → response_to_exception s = some GwError.serverError) ∧
    (s ≠ 200 → s < 400 ∨ 600 ≤ s →
      response_to_exception s = some GwError.unexpectedStatusCode) ∧
    response_to_exception 301 = some GwError.unexpectedStatusCode ∧
    response_to_exception 600 = some GwError.unexpectedStatusCode := by
  refine ⟨by decide, ?_, ?_, ?_, by decide, by decide⟩
  · intro h1 h2
    unfold response_to_exception
    split_ifs with ha hb hc <;> first | rfl | omega
  · intro h1 h2
    unfold response_to_exception
    split_ifs with ha hb hc <;> first | rfl | omega
  · intro h1 h2
    unfold response_to_exception
    split_ifs with ha hb hc <;> first | rfl | omega

/-- Witness for C5 at statuses 450, 550 and 301. -/
theorem classification_totality_witness :
    response_to_exception 450 = some GwError.clientError ∧
    response_to_exception 550 = some GwError.serverError ∧
    response_to_exception 301 = some GwError.unexpectedStatusCode :=
  ⟨(classification_totality 450).2.1 (by decide) (by decide),
   (classification_totality 550).2.2.1 (by decide) (by decide),
   (classification_totality 301).2.2.2.2.1⟩

/-- C4: under the decorator's 10 tries, an endpoint whose first `k` sends
answer 5xx and whose send `k` answers 200 (with `k + 1 ≤ 10`, covering
k ∈ {0,3,9}) costs exactly `k+1` underlying sends and yields the 200
response; an endpoint whose first send answers 4xx costs exactly 1 send
and the ClientError is surfaced to the caller immediately. -/
theorem retry_counting (k : Nat) (st st2 : Nat → Nat)
    (bd bd2 : Nat → List Char) (hk : k + 1 ≤ 10)
    (hfail : ∀ i, i < k → 500 ≤ st i ∧ st i < 600)
    (hok : st k = 200)
    (hclient : 400 ≤ st2 0 ∧ st2 0 < 500) :
    make_request gwClassify (fun n => SendResult.response (st n) (bd n)) =
      (Except.ok (200, bd k), k + 1) ∧
    make_request gwClassify (fun n => SendResult.response (st2 n) (bd2 n)) =
      (Except.error GwError.clientError, 1) := by
  constructor
  · unfold make_request
    apply runRetry_ok _ _ k 10 0 (200, bd k) hk
    · intro i hi
      refine ⟨GwError.serverError, ?_, rfl⟩
      have h5 := hfail i hi
      have hcl : response_to_exception (st i) = some GwError.serverError := by
        unfold response_to_exception
        split_ifs with ha hb hc <;> first | rfl | omega
      simp [attemptOnce, gwClassify, hcl]
    · simp [attemptOnce, gwClassify, Nat.zero_add, hok, response_to_exception]
  · unfold make_request
    apply runRetry_no_retry _ _ 10 0 GwError.clientError _ rfl
    have hcl : response_to_exception (st2 0) = some GwError.clientError := by
      unfold response_to_exception
      split_ifs with ha hb hc <;> first | rfl | omega
    simp [attemptOnce, gwClassify, hcl]

/-- Witness for C4 with k = 3 (statuses 503,503,503,200) and a 404. -/
theorem retry_counting_witness :
    make_request gwClassify
      (fun n => SendResult.response (if n < 3 then 503 else 200) []) =
      (Except.ok (200, []), 4) ∧
    make_request gwClassify (fun _ => SendResult.response 404 []) =
      (Except.error GwError.clientError, 1) :=
  retry_counting 3 (fun n => if n < 3 then 503 else 200) (fun _ => 404)
    (fun _ => []) (fun _ => []) (by omega)
    (by intro i hi; simp [hi]) (by decide) (by decide)

/-- C2 counterexample: an endpoint failing once at the connection level and
succeeding on any further send.  The executor surfaces the transport error
after exactly 1 send, while the same failure pattern with a 500 response is
retried and succeeds after 2 sends — transport failures are not retried
like ServerError/UnexpectedStatus, contrary to the claim. -/
theorem transport_not_retried_cex :
    make_request gwClassify transportThenOk =
      (Except.error GwError.transportError, 1) ∧
    make_request gwClassify serverErrThenOk = (Except.ok (200, []), 2) :=
  ⟨rfl, rfl⟩

/-- C2 (amended): a request whose send fails at the connection level is not
retried: the transport failure is surfaced to the caller immediately after
exactly one send, because the decorator's retriable set contains only
ServerError and UnexpectedStatusCodeError. -/
theorem transport_error_immediate
    (classify : Nat → List Char → Option GwError)
    (endpoint : Nat → SendResult)
    (h : endpoint 0 = SendResult.transportError) :
    make_request classify endpoint =
      (Except.error GwError.transportError, 1) ∧
    retriableByDecorator GwError.transportError = false ∧
    retriableByDecorator GwError.serverError = true ∧
    retriableByDecorator GwError.unexpectedStatusCode = true := by
  refine ⟨?_, rfl, rfl, rfl⟩
  unfold make_request
  apply runRetry_no_retry _ _ 10 0 GwError.transportError _ rfl
  simp [attemptOnce, h]

/-- Witness for C2's amended theorem: an always-failing transport. -/
theorem transport_error_immediate_witness :
    make_request gwClassify (fun _ => SendResult.transportError) =
      (Except.error GwError.transportError, 1) :=
  (transport_error_immediate gwClassify (fun _ => SendResult.transportError)
    rfl).1

/-- C10: a 200 response whose body contains the JS-needed marker as a
literal substring is classified as InvalidAUTHError, and because
InvalidAUTHError is outside the decorator's retriable set, make_request
surfaces it immediately after exactly one send; a 200 response on whose
body the marker search fails is classified as success. -/
theorem invalid_auth_marker (body : List Char) (endpoint : Nat → SendResult) :
    ((∃ pre post, body = pre ++ (JS_NEEDED_SUBSTRING ++ post)) →
      mips_response_to_exception 200 body = some GwError.invalidAuth ∧
      (endpoint 0 = SendResult.response 200 body →
        make_request mipsClassify endpoint =
          (Except.error GwError.invalidAuth, 1))) ∧
    (regexSearch JS_NEEDED_SUBSTRING body = false →
      mips_response_to_exception 200 body = none) := by
  constructor
  · rintro ⟨pre, post, rfl⟩
    have hs : regexSearch JS_NEEDED_SUBSTRING
        (pre ++ (JS_NEEDED_SUBSTRING ++ post)) = true := by
      rw [← List.append_assoc]
      exact regexSearch_of_append JS_NEEDED_SUBSTRING pre post
    have hcl : mips_response_to_exception 200
        (pre ++ (JS_NEEDED_SUBSTRING ++ post)) = some GwError.invalidAuth := by
      unfold mips_response_to_exception
      rw [if_pos rfl, if_pos hs]
    refine ⟨hcl, fun hep => ?_⟩
    unfold make_request
    apply runRetry_no_retry _ _ 10 0 GwError.invalidAuth _ rfl
    simp [attemptOnce, hep, mipsClassify, hcl]
  · intro hns
    simp [mips_response_to_exception, hns]

/-- Witness for C10: the body is exactly the marker text. -/
theorem invalid_auth_marker_witness :
    make_request mipsClassify
      (fun _ => SendResult.response 200 JS_NEEDED_SUBSTRING) =
      (Except.error GwError.invalidAuth, 1) :=
  ((invalid_auth_marker JS_NEEDED_SUBSTRING
      (fun _ => SendResult.response 200 JS_NEEDED_SUBSTRING)).1
    ⟨[], [], by simp⟩).2 rfl

/-- C1 (evaluation at the failing input): on 4 pages of sizes [3,3,3,1]
with max page 4, get_devices makes exactly 4 fetch calls but returns only
the items of pages 3 and 4 — the recursive call passes the current page's
data as the whole accumulator instead of appending it, so the items of
pages 1 and 2 are lost, contradicting the claimed accumulation of all 10
items. -/
theorem get_devices_loses_early_pages :
    get_devices_entry fourPages 10 = some ([6, 7, 8, 9], 4) ∧
    get_devices_entry fourPages 10 ≠
      some ([0, 1, 2, 3, 4, 5, 6, 7, 8, 9], 4) := by
  constructor <;> decide

/-- Sum of the lengths of the two complementary filters of a range. -/
theorem filtered_range_length (p : Nat → Bool) (n : Nat) :
    ((List.range n).filter p).length +
      ((List.range n).filter fun i => !(p i)).length = n := by
  have h := (List.filter_append_perm p (List.range n)).length_eq
  simpa [List.length_append, List.length_range] using h

/-- C3: the bulk orchestrator returns exactly one result per submitted
task: for a valid switch status the result list exists, its length equals
the number of devices, and the multiset of result keys is exactly the
multiset of input devices (each completed task's result object carries its
own device id, as patch_backlight_and_validate always sets it). -/
theorem bulk_result_cardinality (timeout ts switch_status : Nat)
    (shadow : Bool) (devices : List Nat) (outcome : Nat → FutOutcome)
    (hsw : switch_status = 0 ∨ switch_status = 1)
    (hdev : ∀ i res, outcome i = FutOutcome.ok res →
      res.device = some (devices.getD i 0)) :
    ∃ rs, patch_backlight_and_validate_bulk timeout devices outcome ts
        switch_status shadow = some rs ∧
      rs.length = devices.length ∧
      List.Perm (rs.map fun r => r.device) (devices.map some) := by
  obtain ⟨bl, hbl⟩ : ∃ bl, BACKLIGHT_PARAM_TO_NAME switch_status = some bl := by
    rcases hsw with h | h <;> subst h <;> exact ⟨_, rfl⟩
  refine ⟨((List.range devices.length).filter
        (fun i => isDone (outcome i))).map
        (fun i => doneCase (devices.getD i 0) ts bl
          (if shadow then SHADOW_MODE else PROD_MODE) (outcome i)) ++
      ((List.range devices.length).filter
        (fun i => !isDone (outcome i))).map
        (fun i =>
          { device := some (devices.getD i 0), start_ts := some ts,
            backlight_status := some bl, end_ts := some ts,
            error := some (MipsErr.timeout (timeout * devices.length)),
            mode := some (if shadow then SHADOW_MODE else PROD_MODE) }),
    by simp only [patch_backlight_and_validate_bulk, hbl], ?_, ?_⟩
  · rw [List.length_append, List.length_map, List.length_map]
    exact filtered_range_length (fun i => isDone (outcome i)) devices.length
  · rw [List.map_append, List.map_map, List.map_map]
    have hdn : ((List.range devices.length).filter
          fun i => isDone (outcome i)).map
          ((fun r => r.device) ∘ fun i =>
            doneCase (devices.getD i 0) ts bl
              (if shadow then SHADOW_MODE else PROD_MODE) (outcome i)) =
        ((List.range devices.length).filter
          fun i => isDone (outcome i)).map
          (fun i => some (devices.getD i 0)) := by
      refine List.map_congr_left fun i hi => ?_
      have hd : isDone (outcome i) = true := (List.mem_filter.mp hi).2
      show (doneCase (devices.getD i 0) ts bl
        (if shadow then SHADOW_MODE else PROD_MODE) (outcome i)).device =
        some (devices.getD i 0)
      cases hout : outcome i with
      | ok res => exact hdev i res hout
      | exn c => rfl
      | pending s => rw [hout] at hd; simp [isDone] at hd
    rw [hdn]
    have htm : ((List.range devices.length).filter
          fun i => !(isDone (outcome i))).map
          ((fun r => r.device) ∘ fun i =>
            ({ device := some (devices.getD i 0), start_ts := some ts,
               backlight_status := some bl, end_ts := some ts,
               error := some (MipsErr.timeout (timeout * devices.length)),
               mode := some (if shadow then SHADOW_MODE else PROD_MODE) } :
              PBVResult)) =
        ((List.range devices.length).filter
          fun i => !(isDone (outcome i))).map
          (fun i => some (devices.getD i 0)) :=
      List.map_congr_left fun i _ => rfl
    rw [htm, ← List.map_append]
    have hperm := (List.filter_append_perm (fun i => isDone (outcome i))
      (List.range devices.length)).map (fun i => some (devices.getD i 0))
    refine hperm.trans ?_
    have : (List.range devices.length).map
        (fun i => some (devices.getD i 0)) =
        ((List.range devices.length).map (fun i => devices.getD i 0)).map
          some := by
      rw [List.map_map]; rfl
    rw [this, range_map_getD]

/-- Witness for C3: two devices, both tasks raising an exception. -/
theorem bulk_result_cardinality_witness :
    ∃ rs, patch_backlight_and_validate_bulk 2 [7, 8]
        (fun _ => FutOutcome.exn 0) 5 1 false = some rs ∧
      rs.length = [7, 8].length ∧
      List.Perm (rs.map fun r => r.device) ([7, 8].map some) :=
  bulk_result_cardinality 2 5 1 false [7, 8] (fun _ => FutOutcome.exn 0)
    (Or.inr rfl) (fun _ res h => FutOutcome.noConfusion h)

/-- C6: the group deadline equals the per-item timeout multiplied by the
number of submitted tasks, computed once per invocation; every task still
outstanding when the deadline elapses receives a timeout-kind result
carrying that deadline value and stamped with the single post-wait
timestamp snapshot as both start and end time; its cancellation is
best-effort — the work is actually skipped iff it has not started. -/
theorem group_deadline_and_timeout_stamping (timeout ts switch_status : Nat)
    (shadow started : Bool) (devices : List Nat) (outcome : Nat → FutOutcome)
    (i : Nat) (hsw : switch_status = 0 ∨ switch_status = 1)
    (hi : i < devices.length)
    (hout : outcome i = FutOutcome.pending started) :
    ∃ rs, patch_backlight_and_validate_bulk timeout devices outcome ts
        switch_status shadow = some rs ∧
      (∃ r ∈ rs, r.device = some (devices.getD i 0) ∧
        r.error = some (MipsErr.timeout (timeout * devices.length)) ∧
        r.start_ts = some ts ∧ r.end_ts = some ts) ∧
      (futureCancelSkips started = true ↔ started = false) := by
  obtain ⟨bl, hbl⟩ : ∃ bl, BACKLIGHT_PARAM_TO_NAME switch_status = some bl := by
    rcases hsw with h | h <;> subst h <;> exact ⟨_, rfl⟩
  refine ⟨((List.range devices.length).filter
        (fun i => isDone (outcome i))).map
        (fun i => doneCase (devices.getD i 0) ts bl
          (if shadow then SHADOW_MODE else PROD_MODE) (outcome i)) ++
      ((List.range devices.length).filter
        (fun i => !isDone (outcome i))).map
        (fun i =>
          { device := some (devices.getD i 0), start_ts := some ts,
            backlight_status := some bl, end_ts := some ts,
            error := some (MipsErr.timeout (timeout * devices.length)),
            mode := some (if shadow then SHADOW_MODE else PROD_MODE) }),
    by simp only [patch_backlight_and_validate_bulk, hbl], ?_, ?_⟩
  · refine ⟨_, List.mem_append_right _ (List.mem_map_of_mem _ ?_),
      rfl, rfl, rfl, rfl⟩
    refine List.mem_filter.mpr ⟨List.mem_range.mpr hi, ?_⟩
    simp [hout, isDone]
  · simp [futureCancelSkips]

/-- Witness for C6: one device, its task still pending at the deadline. -/
theorem group_deadline_and_timeout_stamping_witness :
    ∃ rs, patch_backlight_and_validate_bulk 4 [3]
        (fun _ => FutOutcome.pending false) 9 0 true = some rs ∧
      (∃ r ∈ rs, r.device = some ([3].getD 0 0) ∧
        r.error = some (MipsErr.timeout (4 * [3].length)) ∧
        r.start_ts = some 9 ∧ r.end_ts = some 9) ∧
      (futureCancelSkips false = true ↔ false = false) :=
  group_deadline_and_timeout_stamping 4 9 0 true false [3]
    (fun _ => FutOutcome.pending false) 0 (Or.inl rfl) (by decide) rfl

/-- C8: an exception raised by a task's unit of work is caught at the
worker boundary and converted into that task's result error field, stamped
with the snapshot timestamp; the orchestrator still returns one result per
task instead of raising for the whole batch. -/
theorem task_errors_captured (timeout ts switch_status : Nat)
    (shadow : Bool) (devices : List Nat) (outcome : Nat → FutOutcome)
    (i c : Nat) (hsw : switch_status = 0 ∨ switch_status = 1)
    (hi : i < devices.length) (hout : outcome i = FutOutcome.exn c) :
    ∃ rs, patch_backlight_and_validate_bulk timeout devices outcome ts
        switch_status shadow = some rs ∧
      rs.length = devices.length ∧
      ∃ r ∈ rs, r.device = some (devices.getD i 0) ∧
        r.error = some (MipsErr.exn c) ∧
        r.start_ts = some ts ∧ r.end_ts = some ts := by
  obtain ⟨bl, hbl⟩ : ∃ bl, BACKLIGHT_PARAM_TO_NAME switch_status = some bl := by
    rcases hsw with h | h <;> subst h <;> exact ⟨_, rfl⟩
  refine ⟨((List.range devices.length).filter
        (fun i => isDone (outcome i))).map
        (fun i => doneCase (devices.getD i 0) ts bl
          (if shadow then SHADOW_MODE else PROD_MODE) (outcome i)) ++
      ((List.range devices.length).filter
        (fun i => !isDone (outcome i))).map
        (fun i =>
          { device := some (devices.getD i 0), start_ts := some ts,
            backlight_status := some bl, end_ts := some ts,
            error := some (MipsErr.timeout (timeout * devices.length)),
            mode := some (if shadow then SHADOW_MODE else PROD_MODE) }),
    by simp only [patch_backlight_and_validate_bulk, hbl], ?_, ?_⟩
  · rw [List.length_append, List.length_map, List.length_map]
    exact filtered_range_length (fun i => isDone (outcome i)) devices.length
  · refine ⟨doneCase (devices.getD i 0) ts bl
      (if shadow then SHADOW_MODE else PROD_MODE) (outcome i),
      List.mem_append_left _ (List.mem_map_of_mem _ ?_), ?_, ?_, ?_, ?_⟩
    · refine List.mem_filter.mpr ⟨List.mem_range.mpr hi, ?_⟩
      simp [hout, isDone]
    · rw [hout]; rfl
    · rw [hout]; rfl
    · rw [hout]; rfl
    · rw [hout]; rfl

/-- Witness for C8: one device whose task raises exception 2. -/
theorem task_errors_captured_witness :
    ∃ rs, patch_backlight_and_validate_bulk 6 [5]
        (fun _ => FutOutcome.exn 2) 11 1 false = some rs ∧
      rs.length = [5].length ∧
      ∃ r ∈ rs, r.device = some ([5].getD 0 0) ∧
        r.error = some (MipsErr.exn 2) ∧
        r.start_ts = some 11 ∧ r.end_ts = some 11 :=
  task_errors_captured 6 11 1 false [5] (fun _ => FutOutcome.exn 2) 0 2
    (Or.inr rfl) (by decide) rfl

/-- C7: limiter selection: with a by-method map configured, the limiter is
the map entry at the lowercased request method and an absent key means no
throttling (even if a base limiter existed); a blanket configuration
always selects the single base limiter; with nothing configured, no
limiter is selected; two methods equal up to case select the same
limiter. -/
theorem limiter_selection_policy (m : List (String × Nat)) (b : Option Nat)
    (l : Nat) (meth meth₁ meth₂ : String) (st : RpsState) :
    (chooseLimiter { rps_by_method := some m, base_rps_limiter := b } meth =
      List.lookup meth.toLower m) ∧
    (chooseLimiter (parse_rps_config RPS_PARSE_BY_METHOD_MODE m l) meth =
      List.lookup meth.toLower m) ∧
    (chooseLimiter (parse_rps_config RPS_PARSE_BLANKET_MODE m l) meth =
      some l) ∧
    (chooseLimiter noRpsState meth = none) ∧
    (meth₁.toLower = meth₂.toLower →
      chooseLimiter st meth₁ = chooseLimiter st meth₂) := by
  refine ⟨rfl, ?_, ?_, rfl, ?_⟩
  · simp [parse_rps_config, RPS_PARSE_BY_METHOD_MODE, RPS_PARSE_BLANKET_MODE,
      chooseLimiter]
  · simp [parse_rps_config, chooseLimiter]
  · intro h
    cases st with
    | mk rbm base => cases rbm <;> simp [chooseLimiter, h]

/-- Witness for C7 on a one-entry map. -/
theorem limiter_selection_policy_witness :
    chooseLimiter
      { rps_by_method := some [("get", 1)], base_rps_limiter := none }
      "GET" =
    chooseLimiter
      { rps_by_method := some [("get", 1)], base_rps_limiter := none }
      "GET" :=
  (limiter_selection_policy [("get", 1)] none 1 "x" "GET" "GET"
    { rps_by_method := some [("get", 1)], base_rps_limiter := none
      }).2.2.2.2 rfl

/-- The proceed time of one critical section is at least one interval after
the stored last-request timestamp, whatever the entry time. -/
theorem limiterProceed_ge (intervalMs last t eps : ℚ) (he : 0 ≤ eps) :
    last + intervalMs ≤ limiterProceed intervalMs last t eps := by
  unfold limiterProceed
  have h1 : intervalMs - (t - last) ≤ max 0 (intervalMs - (t - last)) :=
    le_max_right 0 (intervalMs - (t - last))
  linarith

/-- C9: on one limiter instance with rate `rps`, the proceed timestamps of
the lock-serialized acquisitions form a chain in which each is at least
`1000/rps` ms after the one before, whatever the entry times (sequential or
concurrent callers) and whatever the nonnegative post-sleep delays. -/
theorem limiter_spacing (rps last : ℚ) (events : List (ℚ × ℚ))
    (hrps : 0 < rps) (heps : ∀ ev ∈ events, 0 ≤ ev.2) :
    List.Chain' (fun p q => p + 1000 / rps ≤ q)
      (limiterRun (interval_ms rps) last events) := by
  have key : ∀ (evs : List (ℚ × ℚ)) (l0 : ℚ), (∀ ev ∈ evs, 0 ≤ ev.2) →
      List.Chain' (fun p q => p + 1000 / rps ≤ q)
        (l0 :: limiterRun (interval_ms rps) l0 evs) := by
    intro evs
    induction evs with
    | nil => intro l0 _; simp [limiterRun]
    | cons ev rest ih =>
      intro l0 hev
      have hstep : l0 + 1000 / rps ≤
          limiterProceed (interval_ms rps) l0 ev.1 ev.2 := by
        have := limiterProceed_ge (interval_ms rps) l0 ev.1 ev.2
          (hev ev (List.mem_cons_self ev rest))
        simpa [interval_ms] using this
      have hrest := ih (limiterProceed (interval_ms rps) l0 ev.1 ev.2)
        (fun e he => hev e (List.mem_cons_of_mem ev he))
      simpa [limiterRun, List.chain'_cons] using ⟨hstep, hrest⟩
  have h := key events last heps
  exact List.Chain'.tail h

/-- Witness for C9: rate 5 rps, two acquisitions. -/
theorem limiter_spacing_witness :
    List.Chain' (fun p q => p + 1000 / (5 : ℚ) ≤ q)
      (limiterRun (interval_ms 5) 0 [(0, 0), (300, 1)]) :=
  limiter_spacing 5 0 [(0, 0), (300, 1)] (by norm_num)
    (by intro ev hev
        rcases List.mem_cons.mp hev with h | h
        · rw [h]
        · rcases List.mem_cons.mp h with h2 | h2
          · rw [h2]; norm_num
          · simp at h2)
